import Mathlib

/-!
Shallow embedding of the georust/geocoding provider-abstraction layer
(src/lib.rs, src/geoadmin.rs, src/opencage.rs, src/openstreetmap.rs).

Modelling conventions:
* `f64` coordinates are modelled by `ℚ` with exact arithmetic; the claims
  under verification concern the structure of the computations, not
  floating-point rounding.
* Rust `HashMap` fields consumed by the adapters are modelled as
  association lists with a lookup returning `Option`.
* A Rust function returning `Result<A, GeocodingError>` that can also
  panic (out-of-bounds indexing) is modelled by `CallOutcome A` with
  constructors `ok`, `err` and `crash`.
* The OpenCage adapter's shared `Arc<Mutex<Option<i32>>>` quota counter is
  modelled by explicit state passing of an `Option ℤ`, with a boolean
  `lockOk` input standing for whether `try_lock` succeeds.
* The HTTP transport is external: a call is modelled as a function of the
  provider's (already received) response, given as status flag, optional
  rate-limit header value and optional decoded body (`none` = the body
  failed to decode).
-/

namespace Geocoding

/-- Model of `geo_types::Point<T>` at `T = f64` (exact arithmetic over `ℚ`).
Canonical semantics per src/lib.rs: `x` = longitude/easting, `y` = latitude/northing. -/
structure Pt where
  x : ℚ
  y : ℚ
deriving DecidableEq, Repr

/-- Model of `InputBounds<T>` (src/lib.rs lines 128-135). -/
structure InputBounds where
  minimum_lonlat : Pt
  maximum_lonlat : Pt
deriving DecidableEq, Repr

/-- Model of the closed error taxonomy `GeocodingError` (src/lib.rs lines 54-66).
`request` covers both transport failure (`error_for_status`) and
response-body decode failure, since both arise as `reqwest::Error` and are
converted through the same `Request` variant. -/
inductive GeocodingError where
  | forward
  | reverse
  | request
  | headerConversion
  | parseInt
deriving DecidableEq, Repr

/-- Outcome of a call in the embedding: a Rust `Result` value (`ok`/`err`)
or a panic (`crash`), which in the source is an out-of-bounds index. -/
inductive CallOutcome (α : Type) where
  | ok (val : α)
  | err (e : GeocodingError)
  | crash
deriving DecidableEq, Repr

/-- Model of Rust `f64::to_string` used when serializing query values; the
exact digit string is irrelevant to the claims, only the argument and the
concatenation structure matter. -/
def numStr (q : ℚ) : String := toString q

/-- Model of `impl From<InputBounds<T>> for String` (src/lib.rs lines 156-170):
serialization in the fixed order min.x, min.y, max.x, max.y. -/
def boundsStr (ip : InputBounds) : String :=
  numStr ip.minimum_lonlat.x ++ "," ++ numStr ip.minimum_lonlat.y ++ ","
    ++ numStr ip.maximum_lonlat.x ++ "," ++ numStr ip.maximum_lonlat.y

/-! ## GeoAdmin (src/geoadmin.rs) -/

/-- Model of `wgs84_to_lv03` (src/geoadmin.rs lines 313-330): the
approximate WGS84 → LV03 transform. -/
def wgs84_to_lv03 (p : Pt) : Pt :=
  let lambda : ℚ := (p.x * 3600 - 26782.5) / 10000
  let phi : ℚ := (p.y * 3600 - 169028.66) / 10000
  let x : ℚ := 2600072.37 + 211455.93 * lambda
      - 10938.51 * lambda * phi
      - 0.36 * lambda * phi ^ 2
      - 44.54 * lambda ^ 3
  let y : ℚ := 1200147.07 + 308807.95 * phi + 3745.25 * lambda ^ 2 + 76.63 * phi ^ 2
      - 194.56 * lambda ^ 2 * phi
      + 119.79 * phi ^ 3
  Pt.mk (x - 2000000) (y - 1000000)

/-- Model of the bounding-box handling in `GeoAdmin::forward_full`
(src/geoadmin.rs lines 180-189): the box is replaced by the transform of
its two corners exactly when the configured `sr` is contained in
`["4326", "3857"]`, and is passed through unchanged otherwise. -/
def geoAdminEffectiveBbox (sr : String) (bb : InputBounds) : InputBounds :=
  if (["4326", "3857"] : List String).contains sr then
    InputBounds.mk (wgs84_to_lv03 bb.minimum_lonlat) (wgs84_to_lv03 bb.maximum_lonlat)
  else bb

/-- The `bbox` query value pushed by `GeoAdmin::forward_full` when a box is
supplied (src/geoadmin.rs lines 180-189): `String::from(*bb)` of the
effective box. -/
def geoAdminBboxParam (sr : String) (bb : InputBounds) : String :=
  boundsStr (geoAdminEffectiveBbox sr bb)

/-- Model of `ForwardLocationProperties<T>` (src/geoadmin.rs lines 378-392). -/
structure ForwardLocationProperties where
  origin : String
  geom_quadindex : String
  weight : ℕ
  rank : ℕ
  detail : String
  lat : ℚ
  lon : ℚ
  num : Option ℕ
  x : ℚ
  y : ℚ
  label : String
  zoomlevel : ℕ
deriving DecidableEq, Repr

/-- Model of `GeoAdminForwardLocation<T>` (src/geoadmin.rs lines 368-375). -/
structure GeoAdminForwardLocation where
  id : Option ℕ
  properties : ForwardLocationProperties
deriving DecidableEq, Repr

/-- Model of `GeoAdminForwardResponse<T>` (src/geoadmin.rs lines 359-365). -/
structure GeoAdminForwardResponse where
  features : List GeoAdminForwardLocation
deriving DecidableEq, Repr

/-- Model of the result mapping in `GeoAdmin::forward`
(src/geoadmin.rs lines 245-258): for `sr` in `["2056", "21781"]` each point
is `Point::new(properties.y, properties.x)`, otherwise
`Point::new(properties.x, properties.y)`. -/
def geoAdminForwardPoints (sr : String) (res : GeoAdminForwardResponse) : List Pt :=
  if (["2056", "21781"] : List String).contains sr then
    res.features.map (fun feature => Pt.mk feature.properties.y feature.properties.x)
  else
    res.features.map (fun feature => Pt.mk feature.properties.x feature.properties.y)

/-- Model of `ReverseLocationAttributes` (src/geoadmin.rs lines 433-450). -/
structure ReverseLocationAttributes where
  egid : Option String
  ggdenr : ℕ
  ggdename : String
  gdekt : String
  edid : Option String
  egaid : ℕ
  deinr : Option String
  dplz4 : ℕ
  dplzname : String
  egrid : Option String
  esid : ℕ
  strname : List String
  strsp : List String
  strname_deinr : String
  label : String
deriving DecidableEq, Repr

/-- Model of `GeoAdminReverseLocation` (src/geoadmin.rs lines 420-430). -/
structure GeoAdminReverseLocation where
  id : String
  feature_id : String
  layer_bod_id : String
  layer_name : String
  properties : ReverseLocationAttributes
deriving DecidableEq, Repr

/-- Model of `GeoAdminReverseResponse` (src/geoadmin.rs lines 414-417). -/
structure GeoAdminReverseResponse where
  results : List GeoAdminReverseLocation
deriving DecidableEq, Repr

/-- Model of the response processing in `GeoAdmin::reverse`
(src/geoadmin.rs lines 296-306): if `results` is non-empty, format
`"{strname_deinr}, {dplz4} {dplzname}"` of the first result; otherwise
return `Ok(None)`. -/
def geoAdminReverseProcess (res : GeoAdminReverseResponse) : CallOutcome (Option String) :=
  match res.results with
  | [] => CallOutcome.ok none
  | loc :: _ =>
      CallOutcome.ok (some (loc.properties.strname_deinr ++ ", "
        ++ toString loc.properties.dplz4 ++ " " ++ loc.properties.dplzname))

/-! ## OpenCage (src/opencage.rs) -/

/-- A raw HTTP header value: either valid UTF-8 (so `to_str` succeeds with
the given string) or not (so `to_str` fails). Models the
`reqwest::header::HeaderValue` consumed at src/opencage.rs line 176. -/
inductive HeaderVal where
  | utf8 (s : String)
  | nonUtf8
deriving DecidableEq, Repr

/-- Decimal value of an ASCII digit. -/
def digitVal (c : Char) : Option ℕ :=
  if c.isDigit then some (c.toNat - 48) else none

/-- Accumulate a digit string into a natural number; `none` when a
non-digit is met. -/
def digitsToNat : List Char → ℕ → Option ℕ
  | [], acc => some acc
  | c :: rest, acc =>
      match digitVal c with
      | some d => digitsToNat rest (acc * 10 + d)
      | none => none

/-- Model of Rust `str::parse::<i32>` (external standard library, called at
src/opencage.rs line 177): optional sign, one or more ASCII digits, and an
`i32` range check; anything else fails. -/
def parseI32 (s : String) : Option ℤ :=
  match s.toList with
  | [] => none
  | c :: rest =>
      let signedDigits : Option (Bool × List Char) :=
        if c = '-' then (if rest = [] then none else some (true, rest))
        else if c = '+' then (if rest = [] then none else some (false, rest))
        else some (false, c :: rest)
      match signedDigits with
      | none => none
      | some (neg, ds) =>
          match digitsToNat ds 0 with
          | none => none
          | some n =>
              if neg then (if n ≤ 2 ^ 31 then some (-(n : ℤ)) else none)
              else (if n ≤ 2 ^ 31 - 1 then some (n : ℤ) else none)

/-- Model of `Parameters<'a>` (src/opencage.rs lines 51-56). -/
structure OcParameters where
  language : Option String
  countrycode : Option String
  limit : Option String
deriving DecidableEq, Repr

/-- Model of `Parameters::as_query` (src/opencage.rs lines 58-66): pushes
`language`, `countrycode`, `limit` in that order when present. -/
def paramsAsQuery (p : OcParameters) : List (String × String) :=
  (p.language.map (fun v => ("language", v))).toList
    ++ (p.countrycode.map (fun v => ("countrycode", v))).toList
    ++ (p.limit.map (fun v => ("limit", v))).toList

/-- The `q` value built by `Opencage::reverse` and `Opencage::reverse_full`
(src/opencage.rs lines 151-156 and 301-306): `format!("{}, {}", y, x)` —
latitude first, then `", "`, then longitude. -/
def ocReverseQ (p : Pt) : String := numStr p.y ++ ", " ++ numStr p.x

/-- Query list built by `Opencage::forward` (src/opencage.rs lines 346-352). -/
def ocForwardQuery (place apiKey : String) (params : OcParameters) :
    List (String × String) :=
  [("q", place), ("key", apiKey), ("no_annotations", "1"), ("no_record", "1")]
    ++ paramsAsQuery params

/-- Query list built by `Opencage::reverse` (src/opencage.rs lines 301-313). -/
def ocReverseQuery (apiKey : String) (params : OcParameters) (p : Pt) :
    List (String × String) :=
  [("q", ocReverseQ p), ("key", apiKey), ("no_annotations", "1"), ("no_record", "1")]
    ++ paramsAsQuery params

/-- Query list built by `Opencage::forward_full`
(src/opencage.rs lines 254-270): annotations on (`"0"`), recording
suppressed (`"1"`), optional `bounds`. -/
def ocForwardFullQuery (place apiKey : String) (bounds : Option InputBounds)
    (params : OcParameters) : List (String × String) :=
  [("q", place), ("key", apiKey), ("no_annotations", "0"), ("no_record", "1")]
    ++ (bounds.map (fun bds => ("bounds", boundsStr bds))).toList
    ++ paramsAsQuery params

/-- Query list built by `Opencage::reverse_full` (src/opencage.rs lines 151-163). -/
def ocReverseFullQuery (apiKey : String) (params : OcParameters) (p : Pt) :
    List (String × String) :=
  [("q", ocReverseQ p), ("key", apiKey), ("no_annotations", "0"), ("no_record", "1")]
    ++ paramsAsQuery params

/-- Model of `Status` (src/opencage.rs lines 600-604). -/
structure OcStatus where
  message : String
  code : ℤ
deriving DecidableEq, Repr

/-- Model of `Timestamp` (src/opencage.rs lines 607-612); the
`chrono::NaiveDateTime` is modelled as Unix seconds. -/
structure OcTimestamp where
  created_http : String
  created_unix : ℤ
deriving DecidableEq, Repr

/-- Model of `Bounds<T>` (src/opencage.rs lines 615-622); `HashMap`s as
association lists. -/
structure OcBounds where
  northeast : List (String × ℚ)
  southwest : List (String × ℚ)
deriving DecidableEq, Repr

/-- Model of `Currency` (src/opencage.rs lines 563-578). -/
structure OcCurrency where
  alternate_symbols : Option (List String)
  decimal_mark : String
  html_entity : String
  iso_code : String
  iso_numeric : String
  name : String
  smallest_denomination : ℤ
  subunit : String
  subunit_to_unit : ℤ
  symbol : String
  symbol_first : ℤ
  thousands_separator : String
deriving DecidableEq, Repr

/-- Model of `Sun` (src/opencage.rs lines 581-585). -/
structure OcSun where
  rise : List (String × ℤ)
  set : List (String × ℤ)
deriving DecidableEq, Repr

/-- Model of `Timezone` (src/opencage.rs lines 588-597). -/
structure OcTimezone where
  name : String
  now_in_dst : ℤ
  offset_sec : ℤ
  offset_string : String
  short_name : String
deriving DecidableEq, Repr

/-- Model of `Annotations<T>` (src/opencage.rs lines 542-560). -/
structure OcAnnotations where
  dms : Option (List (String × String))
  mgrs : Option String
  maidenhead : Option String
  mercator : Option (List (String × ℚ))
  osm : Option (List (String × String))
  callingcode : ℤ
  currency : Option OcCurrency
  flag : String
  geohash : String
  qibla : ℚ
  sun : OcSun
  timezone : OcTimezone
  what3words : List (String × String)
deriving DecidableEq, Repr

/-- Model of `Results<T>` (src/opencage.rs lines 528-539). -/
structure OcResult where
  annotations : Option OcAnnotations
  bounds : Option OcBounds
  components : List (String × String)
  confidence : ℤ
  formatted : String
  geometry : List (String × ℚ)
deriving DecidableEq, Repr

/-- Model of `OpencageResponse<T>` (src/opencage.rs lines 511-525). -/
structure OpencageResponse where
  documentation : String
  licenses : List (List (String × String))
  rate : Option (List (String × ℤ))
  results : List OcResult
  status : OcStatus
  stay_informed : List (String × String)
  thanks : String
  timestamp : OcTimestamp
  total_results : ℤ
deriving DecidableEq, Repr

/-- Model of Rust `HashMap` indexing `m[k]`: `none` models the panic on a
missing key. -/
def hashIndex (m : List (String × ℚ)) (k : String) : Option ℚ :=
  (m.find? (fun kv => kv.1 = k)).map (fun kv => kv.2)

/-- The point list built by `Opencage::forward`
(src/opencage.rs lines 370-374): `Point::new(geometry["lng"], geometry["lat"])`
for each result; `none` models the panic when a key is missing. -/
def ocPointsOfResults : List OcResult → Option (List Pt)
  | [] => some []
  | r :: rest =>
      match hashIndex r.geometry "lng", hashIndex r.geometry "lat" with
      | some lng, some lat =>
          (ocPointsOfResults rest).map (fun ps => Pt.mk lng lat :: ps)
      | _, _ => none

/-- Response processing of `Opencage::forward` after a successful decode
(src/opencage.rs lines 369-375). -/
def ocForwardProcess (res : OpencageResponse) : CallOutcome (List Pt) :=
  match ocPointsOfResults res.results with
  | some ps => CallOutcome.ok ps
  | none => CallOutcome.crash

/-- Response processing of `Opencage::reverse` after a successful decode
(src/opencage.rs lines 330-334): `&res.results[0]` panics on an empty
result list, otherwise `Ok(Some(results[0].formatted))`. -/
def ocReverseProcess (res : OpencageResponse) : CallOutcome (Option String) :=
  match res.results with
  | [] => CallOutcome.crash
  | address :: _ => CallOutcome.ok (some address.formatted)

/-- Response processing of `Opencage::forward_full` and
`Opencage::reverse_full` (src/opencage.rs lines 181-182 and 287-288): the
decoded response is returned unchanged. -/
def ocFullProcess (res : OpencageResponse) : CallOutcome OpencageResponse :=
  CallOutcome.ok res

/-- The observable pieces of an OpenCage HTTP response: whether
`error_for_status` passes, the optional `x-ratelimit-remaining` header
value, and the decoded body (`none` = `resp.json()` fails). -/
structure OcHttpResp where
  httpOk : Bool
  xrl : Option HeaderVal
  body : Option OpencageResponse
deriving DecidableEq, Repr

/-- The quota-update block shared verbatim by all four OpenCage calls
(src/opencage.rs lines 172-180, 278-286, 321-329, 360-368): when the
header is present and `try_lock` succeeds, `to_str()?` then `parse()?`
then write; a failed `try_lock` silently skips the update. Returns the new
counter and an optional early-return error. -/
def quotaStep (lockOk : Bool) (xrl : Option HeaderVal) (c : Option ℤ) :
    Option ℤ × Option GeocodingError :=
  match xrl with
  | none => (c, none)
  | some hv =>
      if lockOk then
        match hv with
        | HeaderVal.nonUtf8 => (c, some GeocodingError.headerConversion)
        | HeaderVal.utf8 s =>
            match parseI32 s with
            | none => (c, some GeocodingError.parseInt)
            | some n => (some n, none)
      else (c, none)

/-- The common shape of one OpenCage call
(src/opencage.rs: `reverse_full` lines 147-183, `forward_full` lines
245-289, `reverse` lines 300-335, `forward` lines 345-376):
`send()?.error_for_status()?`, then the quota-update block, then
`resp.json()?`, then the per-call response processing. Returns the final
counter state together with the call's outcome. -/
def ocCall {α : Type} (process : OpencageResponse → CallOutcome α)
    (c : Option ℤ) (lockOk : Bool) (resp : OcHttpResp) :
    Option ℤ × CallOutcome α :=
  if resp.httpOk then
    match quotaStep lockOk resp.xrl c with
    | (cNew, some e) => (cNew, CallOutcome.err e)
    | (cNew, none) =>
        match resp.body with
        | none => (cNew, CallOutcome.err GeocodingError.request)
        | some b => (cNew, process b)
  else (c, CallOutcome.err GeocodingError.request)

/-- `Opencage::forward` as a state transition on the quota counter. -/
def ocForwardCall (c : Option ℤ) (lockOk : Bool) (resp : OcHttpResp) :
    Option ℤ × CallOutcome (List Pt) :=
  ocCall ocForwardProcess c lockOk resp

/-- `Opencage::reverse` as a state transition on the quota counter. -/
def ocReverseCall (c : Option ℤ) (lockOk : Bool) (resp : OcHttpResp) :
    Option ℤ × CallOutcome (Option String) :=
  ocCall ocReverseProcess c lockOk resp

/-- `Opencage::forward_full` as a state transition on the quota counter. -/
def ocForwardFullCall (c : Option ℤ) (lockOk : Bool) (resp : OcHttpResp) :
    Option ℤ × CallOutcome OpencageResponse :=
  ocCall ocFullProcess c lockOk resp

/-- `Opencage::reverse_full` as a state transition on the quota counter. -/
def ocReverseFullCall (c : Option ℤ) (lockOk : Bool) (resp : OcHttpResp) :
    Option ℤ × CallOutcome OpencageResponse :=
  ocCall ocFullProcess c lockOk resp

/-- The counter value installed by `Opencage::new`
(src/opencage.rs line 116): `Arc::new(Mutex::new(None))`. -/
def opencageInitRemaining : Option ℤ := none

/-- Model of `Opencage::remaining_calls` (src/opencage.rs lines 124-126):
`*self.remaining.lock().unwrap()` — a read of the stored value. -/
def remaining_calls (c : Option ℤ) : Option ℤ := c

/-! ## OpenStreetMap (src/openstreetmap.rs) -/

/-- Model of `AddressDetails` (src/openstreetmap.rs lines 320-335). -/
structure AddressDetails where
  city : Option String
  city_district : Option String
  construction : Option String
  continent : Option String
  country : Option String
  country_code : Option String
  house_number : Option String
  neighbourhood : Option String
  postcode : Option String
  public_building : Option String
  state : Option String
  suburb : Option String
  road : Option String
deriving DecidableEq, Repr

/-- Model of `ResultProperties` (src/openstreetmap.rs lines 306-317). -/
structure ResultProperties where
  place_id : ℕ
  osm_type : String
  osm_id : ℕ
  display_name : String
  place_rank : ℕ
  category : String
  osmResultType : String
  importance : ℚ
  address : Option AddressDetails
deriving DecidableEq, Repr

/-- Model of `ResultGeometry<T>` (src/openstreetmap.rs lines 338-345). -/
structure ResultGeometry where
  geomType : String
  coordinates : ℚ × ℚ
deriving DecidableEq, Repr

/-- Model of `OpenstreetmapResult<T>` (src/openstreetmap.rs lines 294-303). -/
structure OpenstreetmapResult where
  featureType : String
  properties : ResultProperties
  bbox : ℚ × ℚ × ℚ × ℚ
  geometry : ResultGeometry
deriving DecidableEq, Repr

/-- Model of `OpenstreetmapResponse<T>` (src/openstreetmap.rs lines 283-291). -/
structure OpenstreetmapResponse where
  collectionType : String
  licence : String
  features : List OpenstreetmapResult
deriving DecidableEq, Repr

/-- Response processing of `Openstreetmap::reverse` after a successful
decode (src/openstreetmap.rs lines 227-229): `&res.features[0]` panics on
an empty feature list, otherwise
`Ok(Some(features[0].properties.display_name))`. -/
def osmReverseProcess (res : OpenstreetmapResponse) : CallOutcome (Option String) :=
  match res.features with
  | [] => CallOutcome.crash
  | address :: _ => CallOutcome.ok (some address.properties.display_name)

/-! ## Concrete inputs used by witnesses and counterexamples -/

/-- A decoded OpenCage response whose `results` list is empty. -/
def ocEmptyBody : OpencageResponse :=
  { documentation := "https://opencagedata.com/api"
    licenses := []
    rate := none
    results := []
    status := { message := "OK", code := 200 }
    stay_informed := []
    thanks := "For using an OpenCage Data API"
    timestamp := { created_http := "", created_unix := 0 }
    total_results := 0 }

/-- A WGS84 bounding box with corners `(7, 46)` and `(8, 47)`. -/
def c2Bb : InputBounds := InputBounds.mk (Pt.mk 7 46) (Pt.mk 8 47)

/-- A sample decoded GeoAdmin forward feature. -/
def sampleProps : ForwardLocationProperties :=
  { origin := "address"
    geom_quadindex := "021300220302203002031"
    weight := 1512
    rank := 7
    detail := "seftigenstrasse 264 3084 wabern 355 koeniz ch be"
    lat := 46.92793655395508
    lon := 7.451352119445801
    num := some 264
    x := 1197427.0
    y := 2600968.75
    label := "Seftigenstrasse 264"
    zoomlevel := 10 }

/-- A sample decoded GeoAdmin forward response with one feature. -/
def sampleForwardResponse : GeoAdminForwardResponse :=
  GeoAdminForwardResponse.mk [GeoAdminForwardLocation.mk (some 1420809) sampleProps]

/-- Modelled from the spec: the "normal decoded result" of an OpenCage
call — the outcome determined by the HTTP status, the body decode and the
per-call response processing alone, with the quota bookkeeping ignored.
Used to state that a failed `try_lock` does not perturb the returned
value. -/
def ocDecodeOutcome {α : Type} (process : OpencageResponse → CallOutcome α)
    (resp : OcHttpResp) : CallOutcome α :=
  if resp.httpOk then
    match resp.body with
    | some b => process b
    | none => CallOutcome.err GeocodingError.request
  else CallOutcome.err GeocodingError.request

/-! ## Helper lemmas -/

/-- None of the four OpenCage response processors produces an `err`
outcome: each returns `ok` or (via out-of-bounds indexing) `crash`. -/
theorem ocForwardProcess_ne_err (b : OpencageResponse) (e : GeocodingError) :
    ocForwardProcess b ≠ CallOutcome.err e := by
  unfold ocForwardProcess
  cases ocPointsOfResults b.results <;> simp

theorem ocReverseProcess_ne_err (b : OpencageResponse) (e : GeocodingError) :
    ocReverseProcess b ≠ CallOutcome.err e := by
  unfold ocReverseProcess
  cases b.results <;> simp

theorem ocFullProcess_ne_err (b : OpencageResponse) (e : GeocodingError) :
    ocFullProcess b ≠ CallOutcome.err e := by
  simp [ocFullProcess]

/-- Where the counter can end up when an OpenCage call returns an error,
provided the response processor itself never returns `err` (true of all
four processors): either the counter is untouched, or the body failed to
decode and the counter carries the result of the quota step. -/
theorem ocCall_err_state {α : Type} (process : OpencageResponse → CallOutcome α)
    (hp : ∀ b e, process b ≠ CallOutcome.err e)
    (c : Option ℤ) (lk : Bool) (resp : OcHttpResp) (e : GeocodingError)
    (h : (ocCall process c lk resp).2 = CallOutcome.err e) :
    (ocCall process c lk resp).1 = c
      ∨ (resp.body = none ∧ (ocCall process c lk resp).1 = (quotaStep lk resp.xrl c).1) := by
  rcases resp with ⟨httpOk, xrl, body⟩
  cases httpOk with
  | false => left; simp [ocCall]
  | true =>
      rcases xrl with _ | hv
      · rcases body with _ | b
        · right; exact ⟨rfl, by simp [ocCall, quotaStep]⟩
        · exact absurd (by simpa [ocCall, quotaStep] using h) (hp b e)
      · cases lk with
        | false =>
            rcases body with _ | b
            · right; exact ⟨rfl, by simp [ocCall, quotaStep]⟩
            · exact absurd (by simpa [ocCall, quotaStep] using h) (hp b e)
        | true =>
            cases hv with
            | nonUtf8 => left; simp [ocCall, quotaStep]
            | utf8 s =>
                cases hps : parseI32 s with
                | none => left; simp [ocCall, quotaStep, hps]
                | some n =>
                    rcases body with _ | b
                    · right; exact ⟨rfl, by simp [ocCall, quotaStep, hps]⟩
                    · exact absurd (by simpa [ocCall, quotaStep, hps] using h) (hp b e)

/-! ## Claims -/

/-- C1: the claim states that `reverse` on a response with zero matching
features returns `Ok(None)` for all three adapters. GeoAdmin does
(src/geoadmin.rs lines 297-306), but `Opencage::reverse` indexes
`res.results[0]` (src/opencage.rs line 332) and `Openstreetmap::reverse`
indexes `res.features[0]` (src/openstreetmap.rs line 228), so both panic
on an empty result list instead of returning `Ok(None)`. -/
theorem c1_reverse_empty_eval :
    geoAdminReverseProcess (GeoAdminReverseResponse.mk []) = CallOutcome.ok none
    ∧ ocReverseCall opencageInitRemaining true (OcHttpResp.mk true none (some ocEmptyBody))
        = (none, CallOutcome.crash)
    ∧ osmReverseProcess (OpenstreetmapResponse.mk "FeatureCollection" "ODbL" [])
        = CallOutcome.crash := by
  refine ⟨rfl, ?_, rfl⟩
  decide

/-- C2 counterexample: with the adapter configured for `sr = "4326"`
(WGS84, not a projected local reference system) the claim says the box is
serialized unchanged, but `GeoAdmin::forward_full` transforms it
(src/geoadmin.rs line 181 triggers the transform exactly when `sr` is
`"4326"` or `"3857"`). -/
theorem c2_counterexample : geoAdminEffectiveBbox "4326" c2Bb ≠ c2Bb := by
  intro h
  have hx : (geoAdminEffectiveBbox "4326" c2Bb).minimum_lonlat.x = 7 := by
    rw [h]; rfl
  norm_num [geoAdminEffectiveBbox, wgs84_to_lv03, c2Bb] at hx

/-- C2 amended: the corners of a bounding box passed to
`GeoAdmin::forward_full` are transformed independently by the
WGS84-to-LV03 transform if and only if the adapter's configured reference
system is `"4326"` or `"3857"`; otherwise the box is serialized unchanged.
In both cases the serialization keeps the corner order (min then max, no
re-sorting). -/
theorem c2_amended (sr : String) (bb : InputBounds) :
    ((sr = "4326" ∨ sr = "3857") →
      geoAdminEffectiveBbox sr bb
        = InputBounds.mk (wgs84_to_lv03 bb.minimum_lonlat) (wgs84_to_lv03 bb.maximum_lonlat))
    ∧ (sr ≠ "4326" → sr ≠ "3857" → geoAdminEffectiveBbox sr bb = bb)
    ∧ geoAdminBboxParam sr bb
        = numStr (geoAdminEffectiveBbox sr bb).minimum_lonlat.x ++ ","
            ++ numStr (geoAdminEffectiveBbox sr bb).minimum_lonlat.y ++ ","
            ++ numStr (geoAdminEffectiveBbox sr bb).maximum_lonlat.x ++ ","
            ++ numStr (geoAdminEffectiveBbox sr bb).maximum_lonlat.y := by
  refine ⟨?_, ?_, rfl⟩
  · rintro (rfl | rfl) <;> simp [geoAdminEffectiveBbox]
  · intro h1 h2
    simp [geoAdminEffectiveBbox, h1, h2]

/-- C2 witness. -/
theorem c2_amended_witness :
    (("4326" = "4326" ∨ ("4326" : String) = "3857")
      ∧ geoAdminEffectiveBbox "4326" c2Bb
          = InputBounds.mk (wgs84_to_lv03 c2Bb.minimum_lonlat)
              (wgs84_to_lv03 c2Bb.maximum_lonlat))
    ∧ (("2056" : String) ≠ "4326" ∧ ("2056" : String) ≠ "3857"
      ∧ geoAdminEffectiveBbox "2056" c2Bb = c2Bb) :=
  ⟨⟨Or.inl rfl, (c2_amended "4326" c2Bb).1 (Or.inl rfl)⟩,
   ⟨by decide, by decide, (c2_amended "2056" c2Bb).2.1 (by decide) (by decide)⟩⟩

/-- C3: `wgs84_to_lv03` computes `lambda = (x*3600 - 26782.5)/10000` and
`phi = (y*3600 - 169028.66)/10000`, evaluates the two fixed-coefficient
cubic polynomials, whose constant terms carry the offsets `2000000` and
`1000000`, and returns the point with the offsets subtracted back out; and
it is a pure function of `(lon, lat)`. -/
theorem c3_transform_formula (p : Pt) :
    (wgs84_to_lv03 p =
      Pt.mk
        ((2000000 + (600072.37
            + 211455.93 * ((p.x * 3600 - 26782.5) / 10000)
            - 10938.51 * ((p.x * 3600 - 26782.5) / 10000) * ((p.y * 3600 - 169028.66) / 10000)
            - 0.36 * ((p.x * 3600 - 26782.5) / 10000) * ((p.y * 3600 - 169028.66) / 10000) ^ 2
            - 44.54 * ((p.x * 3600 - 26782.5) / 10000) ^ 3)) - 2000000)
        ((1000000 + (200147.07
            + 308807.95 * ((p.y * 3600 - 169028.66) / 10000)
            + 3745.25 * ((p.x * 3600 - 26782.5) / 10000) ^ 2
            + 76.63 * ((p.y * 3600 - 169028.66) / 10000) ^ 2
            - 194.56 * ((p.x * 3600 - 26782.5) / 10000) ^ 2 * ((p.y * 3600 - 169028.66) / 10000)
            + 119.79 * ((p.y * 3600 - 169028.66) / 10000) ^ 3)) - 1000000))
    ∧ (∀ q : Pt, q.x = p.x → q.y = p.y → wgs84_to_lv03 q = wgs84_to_lv03 p) := by
  constructor
  · simp only [wgs84_to_lv03, Pt.mk.injEq]
    constructor <;> ring
  · intro q hx hy
    cases p; cases q
    simp_all

/-- C3 witness. -/
theorem c3_transform_formula_witness :
    wgs84_to_lv03 (Pt.mk 7 46) = wgs84_to_lv03 (Pt.mk 7 46)
    ∧ (Pt.mk 7 46).x = (Pt.mk 7 46).x :=
  ⟨(c3_transform_formula (Pt.mk 7 46)).2 (Pt.mk 7 46) rfl rfl, rfl⟩

/-- C4: `GeoAdmin::forward` builds `Point(properties.y, properties.x)`
(swap) for the local projected systems `"2056"` and `"21781"`, and
`Point(properties.x, properties.y)` (no swap) for `"4326"` and `"3857"`. -/
theorem c4_forward_point_order (sr : String) (res : GeoAdminForwardResponse) :
    ((sr = "2056" ∨ sr = "21781") →
      geoAdminForwardPoints sr res
        = res.features.map (fun feature => Pt.mk feature.properties.y feature.properties.x))
    ∧ ((sr = "4326" ∨ sr = "3857") →
      geoAdminForwardPoints sr res
        = res.features.map (fun feature => Pt.mk feature.properties.x feature.properties.y)) := by
  constructor
  · rintro (rfl | rfl) <;> simp [geoAdminForwardPoints]
  · rintro (rfl | rfl) <;> simp [geoAdminForwardPoints]

/-- C4 witness. -/
theorem c4_forward_point_order_witness :
    (("2056" = "2056" ∨ ("2056" : String) = "21781")
      ∧ geoAdminForwardPoints "2056" sampleForwardResponse
          = sampleForwardResponse.features.map
              (fun feature => Pt.mk feature.properties.y feature.properties.x))
    ∧ (("4326" = "4326" ∨ ("4326" : String) = "3857")
      ∧ geoAdminForwardPoints "4326" sampleForwardResponse
          = sampleForwardResponse.features.map
              (fun feature => Pt.mk feature.properties.x feature.properties.y)) :=
  ⟨⟨Or.inl rfl, (c4_forward_point_order "2056" sampleForwardResponse).1 (Or.inl rfl)⟩,
   ⟨Or.inl rfl, (c4_forward_point_order "4326" sampleForwardResponse).2 (Or.inl rfl)⟩⟩

/-- C5 counterexample: a call whose body fails to decode returns an error,
yet the quota counter has already been updated from the rate-limit header
(src/opencage.rs lines 360-368 run before `resp.json()?` at line 369), so
the observable state is not the same as before the call. -/
theorem c5_counterexample :
    (ocForwardCall none true (OcHttpResp.mk true (some (HeaderVal.utf8 "100")) none)).2
        = CallOutcome.err GeocodingError.request
    ∧ (ocForwardCall none true (OcHttpResp.mk true (some (HeaderVal.utf8 "100")) none)).1
        ≠ none := by
  decide

/-- C5 amended: a failing OpenCage call leaves the quota counter unchanged
except in one case: when the failure is the response-body decode, the
counter may already carry the value written by the preceding quota-update
step; all errors raised before that write (HTTP status, header conversion,
header parse) leave the counter untouched. -/
theorem c5_amended :
    (∀ (c : Option ℤ) (lk : Bool) (resp : OcHttpResp) (e : GeocodingError),
      (ocForwardCall c lk resp).2 = CallOutcome.err e →
      (ocForwardCall c lk resp).1 = c
        ∨ (resp.body = none ∧ (ocForwardCall c lk resp).1 = (quotaStep lk resp.xrl c).1))
    ∧ (∀ (c : Option ℤ) (lk : Bool) (resp : OcHttpResp) (e : GeocodingError),
      (ocReverseCall c lk resp).2 = CallOutcome.err e →
      (ocReverseCall c lk resp).1 = c
        ∨ (resp.body = none ∧ (ocReverseCall c lk resp).1 = (quotaStep lk resp.xrl c).1))
    ∧ (∀ (c : Option ℤ) (lk : Bool) (resp : OcHttpResp) (e : GeocodingError),
      (ocForwardFullCall c lk resp).2 = CallOutcome.err e →
      (ocForwardFullCall c lk resp).1 = c
        ∨ (resp.body = none ∧ (ocForwardFullCall c lk resp).1 = (quotaStep lk resp.xrl c).1))
    ∧ (∀ (c : Option ℤ) (lk : Bool) (resp : OcHttpResp) (e : GeocodingError),
      (ocReverseFullCall c lk resp).2 = CallOutcome.err e →
      (ocReverseFullCall c lk resp).1 = c
        ∨ (resp.body = none ∧ (ocReverseFullCall c lk resp).1 = (quotaStep lk resp.xrl c).1)) :=
  ⟨fun c lk resp e h => ocCall_err_state ocForwardProcess ocForwardProcess_ne_err c lk resp e h,
   fun c lk resp e h => ocCall_err_state ocReverseProcess ocReverseProcess_ne_err c lk resp e h,
   fun c lk resp e h => ocCall_err_state ocFullProcess ocFullProcess_ne_err c lk resp e h,
   fun c lk resp e h => ocCall_err_state ocFullProcess ocFullProcess_ne_err c lk resp e h⟩

/-- C5 witness. -/
theorem c5_amended_witness :
    (ocForwardCall none true (OcHttpResp.mk true (some (HeaderVal.utf8 "7")) none)).1 = none
      ∨ ((OcHttpResp.mk true (some (HeaderVal.utf8 "7")) none).body = none
        ∧ (ocForwardCall none true (OcHttpResp.mk true (some (HeaderVal.utf8 "7")) none)).1
            = (quotaStep true (OcHttpResp.mk true (some (HeaderVal.utf8 "7")) none).xrl none).1) :=
  c5_amended.1 none true (OcHttpResp.mk true (some (HeaderVal.utf8 "7")) none)
    GeocodingError.request (by decide)

/-- C6 counterexample: a fully successful `Opencage::forward` whose
response carries no rate-limit header leaves the counter at its initial
`None` — contradicting "after any single successful call the counter holds
`Some(n)`" (the crate itself documents this for paid-tier keys,
src/opencage.rs lines 8-9). -/
theorem c6_counterexample :
    (ocForwardCall opencageInitRemaining true (OcHttpResp.mk true none (some ocEmptyBody))).2
        = CallOutcome.ok ([] : List Pt)
    ∧ (ocForwardCall opencageInitRemaining true
        (OcHttpResp.mk true none (some ocEmptyBody))).1 = none := by
  decide

/-- C6 amended: the counter starts as `None` at construction,
`remaining_calls` returns exactly the stored value, and a successful call
sets the counter to `Some(n)` exactly when the response carried a
parseable rate-limit header and the lock was acquired; a successful call
without the header, or with the lock contended (even when the header is
present), leaves the counter unchanged. -/
theorem c6_amended :
    opencageInitRemaining = none
    ∧ (∀ c : Option ℤ, remaining_calls c = c)
    ∧ (∀ {α : Type} (process : OpencageResponse → CallOutcome α) (c : Option ℤ)
        (resp : OcHttpResp) (s : String) (n : ℤ) (a : α),
        resp.xrl = some (HeaderVal.utf8 s) → parseI32 s = some n →
        (ocCall process c true resp).2 = CallOutcome.ok a →
        (ocCall process c true resp).1 = some n)
    ∧ (∀ {α : Type} (process : OpencageResponse → CallOutcome α) (c : Option ℤ)
        (lk : Bool) (resp : OcHttpResp) (a : α),
        resp.xrl = none →
        (ocCall process c lk resp).2 = CallOutcome.ok a →
        (ocCall process c lk resp).1 = c)
    ∧ (∀ {α : Type} (process : OpencageResponse → CallOutcome α) (c : Option ℤ)
        (resp : OcHttpResp) (a : α),
        (ocCall process c false resp).2 = CallOutcome.ok a →
        (ocCall process c false resp).1 = c) := by
  refine ⟨rfl, fun c => rfl, ?_, ?_, ?_⟩
  · intro α process c resp s n a hxrl hparse hok
    rcases resp with ⟨httpOk, xrl, body⟩
    cases hxrl
    cases httpOk with
    | false => simp [ocCall] at hok
    | true =>
        rcases body with _ | b <;>
          simp_all [ocCall, quotaStep]
  · intro α process c lk resp a hxrl hok
    rcases resp with ⟨httpOk, xrl, body⟩
    cases hxrl
    cases httpOk with
    | false => simp [ocCall] at hok
    | true =>
        rcases body with _ | b <;>
          simp_all [ocCall, quotaStep]
  · intro α process c resp a hok
    rcases resp with ⟨httpOk, xrl, body⟩
    cases httpOk with
    | false => simp [ocCall] at hok
    | true =>
        rcases xrl with _ | hv <;> rcases body with _ | b <;>
          simp_all [ocCall, quotaStep]

/-- C6 witness. -/
theorem c6_amended_witness :
    parseI32 "42" = some 42
    ∧ (ocCall ocForwardProcess none true
        (OcHttpResp.mk true (some (HeaderVal.utf8 "42")) (some ocEmptyBody))).1 = some 42
    ∧ (ocCall ocForwardProcess (some 7) false
        (OcHttpResp.mk true (some (HeaderVal.utf8 "42")) (some ocEmptyBody))).1 = some 7 :=
  ⟨by decide,
   c6_amended.2.2.1 ocForwardProcess none
     (OcHttpResp.mk true (some (HeaderVal.utf8 "42")) (some ocEmptyBody))
     "42" 42 [] rfl (by decide) (by decide),
   c6_amended.2.2.2.2 ocForwardProcess (some 7)
     (OcHttpResp.mk true (some (HeaderVal.utf8 "42")) (some ocEmptyBody))
     [] (by decide)⟩

/-- C7: when `try_lock` fails, every OpenCage call skips the quota update
silently: the counter is unchanged and the outcome is exactly the normal
decoded result (src/opencage.rs lines 173-179 and siblings: the header
block does nothing when the lock is not acquired). -/
theorem c7_lock_failure_skips_update {α : Type}
    (process : OpencageResponse → CallOutcome α)
    (c : Option ℤ) (resp : OcHttpResp) :
    ocCall process c false resp = (c, ocDecodeOutcome process resp) := by
  rcases resp with ⟨httpOk, xrl, body⟩
  cases httpOk <;> cases xrl <;> cases body <;>
    simp [ocCall, quotaStep, ocDecodeOutcome]

/-- C8: with the lock acquired, a non-UTF8 rate-limit header value yields
`HeaderConversion` and a non-integer one yields `ParseInt`, immediately
and with the counter unchanged, whatever the body holds
(src/opencage.rs lines 176-177: `to_str()?` then `parse()?`). -/
theorem c8_header_errors {α : Type} (process : OpencageResponse → CallOutcome α)
    (c : Option ℤ) (resp : OcHttpResp) :
    (resp.httpOk = true → resp.xrl = some HeaderVal.nonUtf8 →
      ocCall process c true resp = (c, CallOutcome.err GeocodingError.headerConversion))
    ∧ (∀ s, resp.httpOk = true → resp.xrl = some (HeaderVal.utf8 s) → parseI32 s = none →
      ocCall process c true resp = (c, CallOutcome.err GeocodingError.parseInt)) := by
  constructor
  · intro hOk hxrl
    rcases resp with ⟨httpOk, xrl, body⟩
    cases hOk; cases hxrl
    simp [ocCall, quotaStep]
  · intro s hOk hxrl hparse
    rcases resp with ⟨httpOk, xrl, body⟩
    cases hOk; cases hxrl
    simp [ocCall, quotaStep, hparse]

/-- C8 witness. -/
theorem c8_header_errors_witness :
    ocCall ocReverseProcess none true
        (OcHttpResp.mk true (some HeaderVal.nonUtf8) (some ocEmptyBody))
      = (none, CallOutcome.err GeocodingError.headerConversion)
    ∧ (parseI32 "12a" = none
      ∧ ocCall ocReverseProcess none true
          (OcHttpResp.mk true (some (HeaderVal.utf8 "12a")) (some ocEmptyBody))
        = (none, CallOutcome.err GeocodingError.parseInt)) :=
  ⟨(c8_header_errors ocReverseProcess none
      (OcHttpResp.mk true (some HeaderVal.nonUtf8) (some ocEmptyBody))).1 rfl rfl,
   by decide,
   (c8_header_errors ocReverseProcess none
      (OcHttpResp.mk true (some (HeaderVal.utf8 "12a")) (some ocEmptyBody))).2
     "12a" rfl rfl (by decide)⟩

/-- C9: `Opencage::reverse` serializes the `q` parameter as the latitude
(`p.y`), then `", "`, then the longitude (`p.x`) — reversed from the
canonical `(x=lon, y=lat)` order of the input point
(src/opencage.rs lines 301-306). -/
theorem c9_reverse_latlon_order (apiKey : String) (params : OcParameters) (p : Pt) :
    (ocReverseQuery apiKey params p).head?
        = some ("q", numStr p.y ++ ", " ++ numStr p.x) := by
  rfl

/-- C10: all four OpenCage query builders include `no_record=1` for every
parameter configuration, and `no_annotations` is `1` for the minimal
`forward`/`reverse` and `0` for the full variants
(src/opencage.rs lines 157-162, 258-263, 307-312, 346-351). -/
theorem c10_fixed_flags (place apiKey : String) (params : OcParameters)
    (p : Pt) (bounds : Option InputBounds) :
    ("no_record", "1") ∈ ocForwardQuery place apiKey params
    ∧ ("no_record", "1") ∈ ocReverseQuery apiKey params p
    ∧ ("no_record", "1") ∈ ocForwardFullQuery place apiKey bounds params
    ∧ ("no_record", "1") ∈ ocReverseFullQuery apiKey params p
    ∧ ("no_annotations", "1") ∈ ocForwardQuery place apiKey params
    ∧ ("no_annotations", "1") ∈ ocReverseQuery apiKey params p
    ∧ ("no_annotations", "0") ∈ ocForwardFullQuery place apiKey bounds params
    ∧ ("no_annotations", "0") ∈ ocReverseFullQuery apiKey params p := by
  refine ⟨?_, ?_, ?_, ?_, ?_, ?_, ?_, ?_⟩ <;>
    simp [ocForwardQuery, ocReverseQuery, ocForwardFullQuery, ocReverseFullQuery]

end Geocoding
